import Mathlib

/-!
# Verification of the gesture-to-interaction pipeline

Shallow embedding of the hand-tracking gesture pipeline (`HandTracker`:
`predictWebcam`, `detectOpenClosed`, `isPinch`) and of the phase state
machine of the particle tree (`ChristmasTree` interaction effect), together
with proofs of the spec's testable properties.

Conventions of the embedding:
* JavaScript numbers are modelled as exact rationals `ℚ`.
* A JavaScript out-of-bounds array access followed by a property read
  (`landmarks[i].x` with `landmarks[i] === undefined`) throws a `TypeError`;
  fallible computations therefore return `Option`, with `none` standing for
  the thrown exception.
* `Math.atan2(dy, dx) + Math.PI / 2` is transcendental, hence not a rational
  function of the landmarks; the per-frame step is parametrised by an
  arbitrary function `rawRot` standing for that roll computation.  Everything
  downstream of it (deadzone, smoothing) is embedded concretely.
* GSAP tweens are modelled by the explicit timed-interpolation value type
  `Tween` `{startVal, endVal, t0, dur, ease}` sampled by `valueAt`, with a
  pending `onComplete` callback recorded as a flag.
-/

namespace GestureTree

/-- One detector landmark: a 3D point in normalized frame coordinates. -/
structure Landmark where
  x : ℚ
  y : ℚ
  z : ℚ
  deriving DecidableEq, Repr

/-- The discrete gesture values of the store (`types.ts` `GestureState`:
`'waiting' | 'open-palm' | 'closed-fist' | 'pinch'`).  The spec's pose label
`Neutral` is the source's `'waiting'`. -/
inductive GestureState where
  | waiting
  | openPalm
  | closedFist
  | pinch
  deriving DecidableEq, Repr

/-- Helper `distSq` from `detectOpenClosed` / `isPinch`:
`(p1.x - p2.x) ** 2 + (p1.y - p2.y) ** 2` (planar: `z` ignored). -/
def distSq (p1 p2 : Landmark) : ℚ :=
  (p1.x - p2.x) ^ 2 + (p1.y - p2.y) ^ 2

/-- Constant `fingerTips = [8, 12, 16, 20]` from `detectOpenClosed`. -/
def fingerTips : List Nat := [8, 12, 16, 20]

/-- Constant `fingerPIPs = [6, 10, 14, 18]` from `detectOpenClosed`. -/
def fingerPIPs : List Nat := [6, 10, 14, 18]

/-- The extended-finger tally of `detectOpenClosed`: loop over the four
fingers comparing squared distance of tip vs PIP joint to the wrist, then the
thumb (`landmarks[4]` vs `landmarks[2]`).  `none` models the `TypeError`
thrown when an accessed landmark is missing. -/
def extendedCount (landmarks : List Landmark) : Option Nat := do
  let wrist ← landmarks[0]?
  let tally ← (List.range 4).foldlM (fun acc i => do
      let tip ← landmarks[fingerTips.getD i 0]?
      let pip ← landmarks[fingerPIPs.getD i 0]?
      pure (if distSq tip wrist > distSq pip wrist then acc + 1 else acc)) 0
  let thumbTip ← landmarks[4]?
  let thumbRef ← landmarks[2]?
  pure (if distSq thumbTip wrist > distSq thumbRef wrist then tally + 1 else tally)

/-- Classifier `detectOpenClosed` from `HandTracker`: `extendedCount >= 5` is
`'open-palm'`, `extendedCount <= 1` is `'closed-fist'`, otherwise `'waiting'`
(the spec's Neutral). -/
def detectOpenClosed (landmarks : List Landmark) : Option GestureState := do
  let c ← extendedCount landmarks
  if c ≥ 5 then pure .openPalm
  else if c ≤ 1 then pure .closedFist
  else pure .waiting

/-- Predicate `isPinch` from `HandTracker`: thumb tip `landmarks[4]`, index tip
`landmarks[8]`, `Math.sqrt(distSq(thumbTip, indexTip)) < 0.05`.  Since
`distSq ≥ 0`, the source's comparison of the square root against `0.05` is
equivalent to comparing `distSq` against `0.05 ^ 2` (proved in
`isPinch_iff_sqrt` below); the embedding uses the squared form so that it
stays inside `ℚ`. -/
def isPinch (landmarks : List Landmark) : Option Bool := do
  let thumbTip ← landmarks[4]?
  let indexTip ← landmarks[8]?
  pure (decide (distSq thumbTip indexTip < (5/100 : ℚ) ^ 2))

/-- The rotation deadzone of `predictWebcam`:
`if (Math.abs(rotation) < 0.2) rotation = 0`. -/
def deadzone (rotation : ℚ) : ℚ :=
  if |rotation| < 2/10 then 0 else rotation

/-- MediaPipe handedness category label of one detected hand
(`results.handedness[i][0].categoryName`). -/
inductive HandLabel where
  | left
  | right
  deriving DecidableEq, Repr

/-- One per-frame hand observation: handedness label plus landmark list. -/
structure HandObservation where
  label : HandLabel
  landmarks : List Landmark

/-- The state `predictWebcam` carries across frames: the smoother refs
`prevHandPos`, `prevHandRot`, the published `gestureState`, and the
`isCameraOpen` flag that guards rescheduling. -/
structure TrackerState where
  prevHandPosX : ℚ
  prevHandPosY : ℚ
  prevHandRot : ℚ
  gestureState : GestureState
  isCameraOpen : Bool
  deriving DecidableEq, Repr

/-- Accumulator of the per-hand loop of `predictWebcam`:
`(prevHandPos.x, prevHandPos.y, prevHandRot, rightHandState, leftHandState)`. -/
abbrev LoopAcc := ℚ × ℚ × ℚ × GestureState × GestureState

/-- Body of the `for` loop of `predictWebcam` over the detected hands.
`rawRot wrist middleTip` stands for
`Math.atan2(middleTip.y - wrist.y, middleTip.x - wrist.x) + Math.PI / 2`.
For a `'Left'` label (user's right, control hand) the position and rotation
smoothers update and `rightHandState` is classified; for `'Right'` (user's
left, grab hand) `leftHandState` becomes `'pinch'` when the pose is
`'closed-fist'` or (short-circuit) the raw pinch test holds. -/
def handLoop (rawRot : Landmark → Landmark → ℚ) (acc : LoopAcc)
    (obs : HandObservation) : Option LoopAcc :=
  match obs.label with
  | .left => do
      let wrist ← obs.landmarks[0]?
      let middleTip ← obs.landmarks[9]?
      let (px, py, pr, _, l) := acc
      let smoothX := px + (wrist.x - px) * (15/100)
      let smoothY := py + (wrist.y - py) * (15/100)
      let rotation := deadzone (rawRot wrist middleTip)
      let smoothRot := pr + (rotation - pr) * (1/10)
      let r ← detectOpenClosed obs.landmarks
      pure (smoothX, smoothY, smoothRot, r, l)
  | .right => do
      let state ← detectOpenClosed obs.landmarks
      let grab ← if state = .closedFist then pure true else isPinch obs.landmarks
      let (px, py, pr, r, l) := acc
      pure (px, py, pr, r, if grab then .pinch else l)

/-- The priority rule exactly as the spec words it (§4.3 step 3), to be
compared against the combination computed by `predictFrame`:
control `ClosedFist` wins, else a grab `Pinch`, else control `OpenPalm`,
else `Waiting`. -/
def specPriority (controlPose : GestureState) (grabSignalPinch : Bool) :
    GestureState :=
  if controlPose = .closedFist then .closedFist
  else if grabSignalPinch then .pinch
  else if controlPose = .openPalm then .openPalm
  else .waiting

/-- Outcome of the per-frame detector call: either a hand list or a thrown
exception (`handLandmarker.detectForVideo` inside `try`). -/
inductive DetectorResult where
  | ok (observations : List HandObservation)
  | err

/-- One run of `predictWebcam` after the video-readiness guard, returning the
new tracker state and whether the next frame was scheduled
(`requestAnimationFrame`).  The `catch` branch leaves all state untouched and
reschedules unconditionally; an empty hand list publishes `'waiting'`;
otherwise the hand loop runs and the combined priority result is published.
`none` models an uncaught exception escaping the frame handler. -/
def predictFrame (rawRot : Landmark → Landmark → ℚ) (st : TrackerState)
    (d : DetectorResult) : Option (TrackerState × Bool) :=
  match d with
  | .err => some (st, true)
  | .ok observations =>
    if observations.isEmpty then
      some ({ st with gestureState := .waiting }, st.isCameraOpen)
    else do
      let (px, py, pr, r, l) ← observations.foldlM (handLoop rawRot)
        (st.prevHandPosX, st.prevHandPosY, st.prevHandRot, .waiting, .waiting)
      let newGestureState : GestureState :=
        if r = .closedFist then .closedFist
        else if l = .pinch then .pinch
        else if r = .openPalm then .openPalm
        else .waiting
      pure ({ st with
                prevHandPosX := px
                prevHandPosY := py
                prevHandRot := pr
                gestureState := newGestureState }, st.isCameraOpen)

/-! Concrete landmark lists used as test inputs. -/

/-- Twenty-one landmarks all at the origin: every distance comparison is `0 > 0`,
so no finger reads as extended (a closed fist), and thumb and index tips
coincide (a pinch). -/
def fistLms : List Landmark := List.replicate 21 ⟨0, 0, 0⟩

/-- Twenty-one landmarks with the five tip landmarks (indices 4, 8, 12, 16, 20) moved
away from the wrist: all five fingers read as extended (an open palm). -/
def openLms : List Landmark :=
  (List.range 21).map fun i =>
    if i = 4 ∨ i = 8 ∨ i = 12 ∨ i = 16 ∨ i = 20 then ⟨1, 0, 0⟩ else ⟨0, 0, 0⟩

/-- Twenty-one landmarks with exactly three fingers (middle, ring, pinky) extended
while thumb and index tips coincide: pose Neutral yet pinching. -/
def neutralPinchLms : List Landmark :=
  (List.range 21).map fun i =>
    if i = 12 ∨ i = 16 ∨ i = 20 then ⟨1, 0, 0⟩ else ⟨0, 0, 0⟩

/-- A nine-element landmark list whose thumb tip and index tip lie exactly
`0.05` apart (Euclidean planar distance `1/20`). -/
def exactPinchLms : List Landmark :=
  [⟨0, 0, 0⟩, ⟨0, 0, 0⟩, ⟨0, 0, 0⟩, ⟨0, 0, 0⟩, ⟨0, 0, 0⟩,
   ⟨0, 0, 0⟩, ⟨0, 0, 0⟩, ⟨0, 0, 0⟩, ⟨1/20, 0, 0⟩]

/-- A nine-element landmark list whose thumb tip and index tip lie `0.049`
apart. -/
def nearPinchLms : List Landmark :=
  [⟨0, 0, 0⟩, ⟨0, 0, 0⟩, ⟨0, 0, 0⟩, ⟨0, 0, 0⟩, ⟨0, 0, 0⟩,
   ⟨0, 0, 0⟩, ⟨0, 0, 0⟩, ⟨0, 0, 0⟩, ⟨49/1000, 0, 0⟩]

/-- The count of extended fingers as the spec words it: among the four
finger (tip, PIP) pairs and the thumb (tip, reference-joint) pair, those
whose tip lies strictly farther from the wrist than the joint, in squared
planar distance.  Stated with total `getD` access as a sum of indicators;
compared against the source-shaped `extendedCount` in
`detectOpenClosed_classification`. -/
def countExtended (lms : List Landmark) : Nat :=
  (((fingerTips.zip fingerPIPs) ++ [(4, 2)]).map fun (tp : Nat × Nat) =>
    if distSq (lms.getD tp.1 ⟨0, 0, 0⟩) (lms.getD 0 ⟨0, 0, 0⟩) >
       distSq (lms.getD tp.2 ⟨0, 0, 0⟩) (lms.getD 0 ⟨0, 0, 0⟩) then 1 else 0).sum

/-! The phase state machine (`ChristmasTree` interaction effect). -/

/-- The application phase of the store (`types.ts` `AppPhase`:
`'tree' | 'nebula' | 'collapsing'`). -/
inductive Phase where
  | tree
  | nebula
  | collapsing
  deriving DecidableEq, Repr

/-- GSAP easing curves used by `ChristmasTree`: the default ease
(`power1.out`, quadratic out), `"power2.out"` (cubic out) and
`"power2.inOut"` (cubic in-out). -/
inductive Easing where
  | power1Out
  | power2Out
  | power2InOut
  deriving DecidableEq, Repr

/-- The easing curves as functions on normalized progress. -/
def easeApply : Easing → ℚ → ℚ
  | .power1Out, p => 1 - (1 - p) ^ 2
  | .power2Out, p => 1 - (1 - p) ^ 3
  | .power2InOut, p => if p < 1/2 then 4 * p ^ 3 else 1 - (2 - 2 * p) ^ 3 / 2

/-- A GSAP tween `gsap.to(target, {current: endVal, duration: dur, ease})`
started at `t0`, re-modelled as an explicit timed-interpolation value.
`completeSetsTree` records a pending `onComplete: () => setPhase('tree')`
callback (the only completion callback the source installs). -/
structure Tween where
  startVal : ℚ
  endVal : ℚ
  t0 : ℚ
  dur : ℚ
  ease : Easing
  completeSetsTree : Bool
  deriving DecidableEq, Repr

/-- Sampled value of a tween at time `t`: the end value once the duration has
elapsed, the start value before `t0`, the eased interpolation in between. -/
def Tween.valueAt (tw : Tween) (t : ℚ) : ℚ :=
  if tw.t0 + tw.dur ≤ t then tw.endVal
  else if t ≤ tw.t0 then tw.startVal
  else tw.startVal + (tw.endVal - tw.startVal) * easeApply tw.ease ((t - tw.t0) / tw.dur)

/-- Retargeting by `gsap.to` of a value already driven by `tw`: the new tween starts from
the driven value at the trigger time `t` and replaces the old one. -/
def Tween.retarget (tw : Tween) (t target dur : ℚ) (ease : Easing)
    (completeSetsTree : Bool) : Tween :=
  { startVal := tw.valueAt t
    endVal := target
    t0 := t
    dur := dur
    ease := ease
    completeSetsTree := completeSetsTree }

/-- A GSAP tween on a 3D object (camera position / orbit-controls target);
only the end point and timing are tracked. -/
structure CamTween where
  target : ℚ × ℚ × ℚ
  t0 : ℚ
  dur : ℚ
  deriving DecidableEq, Repr

/-- State owned by the `ChristmasTree` component and the store that the
interaction effect reads and writes: the phase, `focusedPhotoIndex`, the
tweened scalars `explosionVal` / `focusVal`, the camera animations and the
orbit-controls enabled flag. -/
structure MState where
  phase : Phase
  focusedPhotoIndex : Option Nat
  explosionVal : Tween
  focusVal : Tween
  camPosAnim : CamTween
  controlsTargetAnim : CamTween
  controlsEnabled : Bool
  deriving DecidableEq, Repr

/-- A tween that constantly holds `v` (models a ref that has never been
tweened). -/
def constTween (v : ℚ) : Tween :=
  { startVal := v, endVal := v, t0 := 0, dur := 0
    ease := .power1Out, completeSetsTree := false }

/-- The initial camera framing of `Scene`:
`<PerspectiveCamera position={[0, 2, 18]} />`. -/
def initialCameraPos : ℚ × ℚ × ℚ := (0, 2, 18)

/-- Initial state: store phase `'tree'`, no focused photo,
`explosionVal.current = 0`, `focusVal.current = 0`, camera at the initial
framing with orbit controls targeting the origin and enabled. -/
def initialMState : MState :=
  { phase := .tree
    focusedPhotoIndex := none
    explosionVal := constTween 0
    focusVal := constTween 0
    camPosAnim := { target := initialCameraPos, t0 := 0, dur := 0 }
    controlsTargetAnim := { target := (0, 0, 0), t0 := 0, dur := 0 }
    controlsEnabled := true }

/-- The gesture-interaction effect of `ChristmasTree` (the `useEffect` on
`[gestureState, phase, ...]`), run at time `t` with `nPhotos` uploaded photos
and `rnd` the value drawn from `Math.random()` in the pinch branch:

* `'open-palm'`: when `phase !== 'nebula' || focusedPhotoIndex !== null`,
  additionally start `explosionVal → 1` (2 s, `power2.out`) and set phase
  `'nebula'` when not already there; in either case animate `focusVal → 0`
  (1 s), clear `focusedPhotoIndex` and re-enable controls;
* `'closed-fist'`: when phase is neither `'collapsing'` nor `'tree'`, set
  phase `'collapsing'`, start `explosionVal → 0` (2 s, `power2.inOut`) with
  `onComplete` setting phase `'tree'`, animate `focusVal → 0` (1 s), clear
  the focus, and tween camera position to `(0, 2, 18)` and controls target to
  the origin (2 s each);
* `'pinch'` while phase `'nebula'` and `uploadedPhotos.length > 0`: when no
  photo is focused, focus `Math.floor(Math.random() * nPhotos)`, animate
  `focusVal → 1` (1.5 s) and disable controls;
* otherwise nothing. -/
def onGesture (s : MState) (g : GestureState) (t : ℚ) (nPhotos : Nat)
    (rnd : ℚ) : MState :=
  if g = .openPalm then
    if s.phase ≠ .nebula ∨ s.focusedPhotoIndex ≠ none then
      let s1 := if s.phase ≠ .nebula then
          { s with explosionVal := s.explosionVal.retarget t 1 2 .power2Out false
                   phase := .nebula }
        else s
      { s1 with focusVal := s1.focusVal.retarget t 0 1 .power1Out false
                focusedPhotoIndex := none
                controlsEnabled := true }
    else s
  else if g = .closedFist then
    if s.phase ≠ .collapsing ∧ s.phase ≠ .tree then
      { s with phase := .collapsing
               explosionVal := s.explosionVal.retarget t 0 2 .power2InOut true
               focusVal := s.focusVal.retarget t 0 1 .power1Out false
               focusedPhotoIndex := none
               camPosAnim := { target := initialCameraPos, t0 := t, dur := 2 }
               controlsEnabled := true
               controlsTargetAnim := { target := (0, 0, 0), t0 := t, dur := 2 } }
    else s
  else if g = .pinch ∧ s.phase = .nebula ∧ 0 < nPhotos then
    if s.focusedPhotoIndex = none then
      { s with focusedPhotoIndex := some (Int.toNat ⌊rnd * nPhotos⌋)
               focusVal := s.focusVal.retarget t 1 (3/2) .power1Out false
               controlsEnabled := false }
    else s
  else s

/-- Click handler `handlePhotoClick`: a click on photo `i` at time `t` focuses it
whenever the phase is `'nebula'`, animating `focusVal → 1` (1.5 s) and
disabling controls. -/
def handlePhotoClick (s : MState) (i : Nat) (t : ℚ) : MState :=
  if s.phase = .nebula then
    { s with focusedPhotoIndex := some i
             focusVal := s.focusVal.retarget t 1 (3/2) .power1Out false
             controlsEnabled := false }
  else s

/-- Firing of due GSAP completion callbacks at time `t`: the collapse tween's
`onComplete: () => setPhase('tree')` fires exactly once when its duration has
elapsed. -/
def fireCompletions (s : MState) (t : ℚ) : MState :=
  if s.explosionVal.completeSetsTree ∧ s.explosionVal.t0 + s.explosionVal.dur ≤ t then
    { s with phase := .tree
             explosionVal := { s.explosionVal with completeSetsTree := false } }
  else s

/-- States of the phase machine reachable from the initial state by gesture
triggers, photo clicks and animation completions. -/
inductive Reachable : MState → Prop where
  | init : Reachable initialMState
  | gesture {s} (g : GestureState) (t : ℚ) (nPhotos : Nat) (rnd : ℚ) :
      Reachable s → Reachable (onGesture s g t nPhotos rnd)
  | click {s} (i : Nat) (t : ℚ) :
      Reachable s → Reachable (handlePhotoClick s i t)
  | complete {s} (t : ℚ) :
      Reachable s → Reachable (fireCompletions s t)

/-- The state after an open palm at time 0 from the initial state (a spread
nebula with no focused photo). -/
def nebulaState : MState := onGesture initialMState .openPalm 0 1 0

/-- The state after additionally pinching at time 1 with one uploaded photo
(a spread nebula with photo 0 focused). -/
def nebulaFocusedState : MState := onGesture nebulaState .pinch 1 1 0

/-! Evaluations of the classifier on the concrete landmark lists. -/

/-- The all-zero hand reads as a closed fist. -/
lemma detect_fistLms : detectOpenClosed fistLms = some .closedFist := by
  simp [detectOpenClosed, extendedCount, fistLms, List.replicate, distSq,
    fingerTips, fingerPIPs, List.range, List.range.loop, List.foldlM]

/-- The all-zero hand reads as pinching. -/
lemma pinch_fistLms : isPinch fistLms = some true := by
  simp [isPinch, fistLms, List.replicate, distSq]

/-- The spread hand reads as an open palm. -/
lemma detect_openLms : detectOpenClosed openLms = some .openPalm := by
  simp [detectOpenClosed, extendedCount, openLms, distSq,
    fingerTips, fingerPIPs, List.range, List.range.loop, List.foldlM]

/-- The three-finger hand reads as Neutral. -/
lemma detect_neutralPinchLms :
    detectOpenClosed neutralPinchLms = some .waiting := by
  simp [detectOpenClosed, extendedCount, neutralPinchLms, distSq,
    fingerTips, fingerPIPs, List.range, List.range.loop, List.foldlM]

/-- The three-finger hand reads as pinching. -/
lemma pinch_neutralPinchLms : isPinch neutralPinchLms = some true := by
  simp [isPinch, neutralPinchLms, distSq, List.range, List.range.loop]

/-- Machine invariant: whenever the phase is `'nebula'`, the current
explosion tween is aimed at 1 (the open-palm transition installed it and
nothing retargets it without leaving `'nebula'`). -/
lemma nebula_explosion_target {s : MState} (hs : Reachable s) :
    s.phase = .nebula → s.explosionVal.endVal = 1 := by
  induction hs with
  | init => intro h; simp [initialMState] at h
  | @gesture s g t nPhotos rnd _ ih =>
      intro h
      unfold onGesture at h ⊢
      split_ifs at h ⊢ with h1 h2 h3 h4 h5 h6 h7 <;>
        simp_all [Tween.retarget]
  | @click s i t _ ih =>
      intro h
      unfold handlePhotoClick at h ⊢
      split_ifs at h ⊢ with h1 <;> simp_all
  | @complete s t _ ih =>
      intro h
      unfold fireCompletions at h ⊢
      split_ifs at h ⊢ with h1 <;> simp_all

/-! Helper evaluations of the two concrete machine states. -/

/-- The nebula state is in phase `'nebula'`. -/
lemma nebulaState_phase : nebulaState.phase = .nebula := by
  simp [nebulaState, onGesture, initialMState]

/-- The nebula state has no focused photo. -/
lemma nebulaState_focus : nebulaState.focusedPhotoIndex = none := by
  simp [nebulaState, onGesture, initialMState]

/-- The focused state is still in phase `'nebula'`. -/
lemma nebulaFocusedState_phase : nebulaFocusedState.phase = .nebula := by
  simp [nebulaFocusedState, nebulaState, onGesture, initialMState]

/-- The focused state has photo 0 focused. -/
lemma nebulaFocusedState_focus :
    nebulaFocusedState.focusedPhotoIndex = some 0 := by
  simp [nebulaFocusedState, nebulaState, onGesture, initialMState]

/-- C2: an OpenPalm while not in Nebula, or in Nebula with a photo focused,
leaves the machine in Nebula with the focused photo cleared, the focus value
animating to 0 from the trigger time, and the explosion animation aimed at 1
(newly started over 2 s when the phase actually changes); an OpenPalm while
already in Nebula with no focus is a complete no-op. -/
theorem openPalm_transition (s : MState) (t : ℚ) (n : Nat) (r : ℚ)
    (hs : Reachable s) :
    ((s.phase ≠ .nebula ∨ s.focusedPhotoIndex ≠ none) →
      (onGesture s .openPalm t n r).phase = .nebula ∧
      (onGesture s .openPalm t n r).focusedPhotoIndex = none ∧
      (onGesture s .openPalm t n r).focusVal.endVal = 0 ∧
      (onGesture s .openPalm t n r).focusVal.t0 = t ∧
      (onGesture s .openPalm t n r).explosionVal.endVal = 1 ∧
      (s.phase ≠ .nebula →
        (onGesture s .openPalm t n r).explosionVal.t0 = t ∧
        (onGesture s .openPalm t n r).explosionVal.dur = 2)) ∧
    (s.phase = .nebula ∧ s.focusedPhotoIndex = none →
      onGesture s .openPalm t n r = s) := by
  constructor
  · intro htrig
    by_cases hph : s.phase = .nebula
    · have hfoc : s.focusedPhotoIndex ≠ none := by tauto
      have hexp := nebula_explosion_target hs hph
      simp [onGesture, hph, hfoc, Tween.retarget, hexp]
    · simp [onGesture, hph, Tween.retarget]
  · rintro ⟨hph, hfoc⟩
    simp [onGesture, hph, hfoc]

/-- C2 witness: an OpenPalm in the reachable focused-nebula state exits the
focus back to the plain nebula, and a repeated OpenPalm there is a no-op. -/
theorem openPalm_transition_witness :
    ((onGesture nebulaFocusedState .openPalm 5 1 0).phase = .nebula ∧
      (onGesture nebulaFocusedState .openPalm 5 1 0).focusedPhotoIndex =
        none) ∧
    onGesture nebulaState .openPalm 5 1 0 = nebulaState := by
  have hr1 : Reachable nebulaFocusedState :=
    Reachable.gesture .pinch 1 1 0
      (Reachable.gesture .openPalm 0 1 0 Reachable.init)
  have hr2 : Reachable nebulaState :=
    Reachable.gesture .openPalm 0 1 0 Reachable.init
  have h1 := (openPalm_transition nebulaFocusedState 5 1 0 hr1).1
    (Or.inr (by rw [nebulaFocusedState_focus]; simp))
  have h2 := (openPalm_transition nebulaState 5 1 0 hr2).2
    ⟨nebulaState_phase, nebulaState_focus⟩
  exact ⟨⟨h1.1, h1.2.1⟩, h2⟩

/-- C3: a ClosedFist while the phase is neither Collapsing nor Tree enters
Collapsing, starts the explosion animation to 0 over 2 s with a pending
set-phase-Tree completion, clears the focus (entity and animation target),
and retargets camera position and view target to the initial framing; once
the animation's duration has elapsed the completion yields phase Tree with
explosion progress 0 and the focused entity still cleared. -/
theorem closedFist_collapse (s : MState) (t t' : ℚ) (n : Nat) (r : ℚ)
    (h1 : s.phase ≠ .collapsing) (h2 : s.phase ≠ .tree) (ht : t + 2 ≤ t') :
    (onGesture s .closedFist t n r).phase = .collapsing ∧
    (onGesture s .closedFist t n r).explosionVal.endVal = 0 ∧
    (onGesture s .closedFist t n r).explosionVal.t0 = t ∧
    (onGesture s .closedFist t n r).explosionVal.dur = 2 ∧
    (onGesture s .closedFist t n r).explosionVal.completeSetsTree = true ∧
    (onGesture s .closedFist t n r).focusedPhotoIndex = none ∧
    (onGesture s .closedFist t n r).focusVal.endVal = 0 ∧
    (onGesture s .closedFist t n r).camPosAnim =
      { target := initialCameraPos, t0 := t, dur := 2 } ∧
    (onGesture s .closedFist t n r).controlsTargetAnim =
      { target := (0, 0, 0), t0 := t, dur := 2 } ∧
    (fireCompletions (onGesture s .closedFist t n r) t').phase = .tree ∧
    (fireCompletions (onGesture s .closedFist t n r) t').explosionVal.valueAt
      t' = 0 ∧
    (fireCompletions (onGesture s .closedFist t n r) t').focusedPhotoIndex =
      none := by
  have hstep : onGesture s .closedFist t n r =
      { s with phase := .collapsing
               explosionVal := s.explosionVal.retarget t 0 2 .power2InOut true
               focusVal := s.focusVal.retarget t 0 1 .power1Out false
               focusedPhotoIndex := none
               camPosAnim := { target := initialCameraPos, t0 := t, dur := 2 }
               controlsEnabled := true
               controlsTargetAnim :=
                 { target := (0, 0, 0), t0 := t, dur := 2 } } := by
    simp [onGesture, h1, h2]
  rw [hstep]
  have hfire : fireCompletions
      { s with phase := .collapsing
               explosionVal := s.explosionVal.retarget t 0 2 .power2InOut true
               focusVal := s.focusVal.retarget t 0 1 .power1Out false
               focusedPhotoIndex := none
               camPosAnim := { target := initialCameraPos, t0 := t, dur := 2 }
               controlsEnabled := true
               controlsTargetAnim :=
                 { target := (0, 0, 0), t0 := t, dur := 2 } } t' =
      { s with phase := .tree
               explosionVal :=
                 { s.explosionVal.retarget t 0 2 .power2InOut true with
                     completeSetsTree := false }
               focusVal := s.focusVal.retarget t 0 1 .power1Out false
               focusedPhotoIndex := none
               camPosAnim := { target := initialCameraPos, t0 := t, dur := 2 }
               controlsEnabled := true
               controlsTargetAnim :=
                 { target := (0, 0, 0), t0 := t, dur := 2 } } := by
    simp [fireCompletions, Tween.retarget, ht]
  rw [hfire]
  refine ⟨rfl, rfl, rfl, rfl, rfl, rfl, rfl, rfl, rfl, rfl, ?_, rfl⟩
  simp [Tween.retarget, Tween.valueAt, ht]

/-- C3 witness: collapsing the concrete nebula state at time 10 reaches Tree
with explosion progress 0 at time 12. -/
theorem closedFist_collapse_witness :
    (onGesture nebulaState .closedFist 10 0 0).phase = .collapsing ∧
    (fireCompletions (onGesture nebulaState .closedFist 10 0 0) 12).phase =
      .tree ∧
    (fireCompletions
        (onGesture nebulaState .closedFist 10 0 0) 12).explosionVal.valueAt
      12 = 0 ∧
    (fireCompletions
        (onGesture nebulaState .closedFist 10 0 0) 12).focusedPhotoIndex =
      none := by
  have h := closedFist_collapse nebulaState 10 12 0 0
    (by rw [nebulaState_phase]; simp) (by rw [nebulaState_phase]; simp)
    (by norm_num)
  exact ⟨h.1, h.2.2.2.2.2.2.2.2.2.1, h.2.2.2.2.2.2.2.2.2.2.1,
    h.2.2.2.2.2.2.2.2.2.2.2⟩

/-- C6: a Pinch focuses a photo only while in Nebula with at least one photo
and nothing focused yet; when it fires it focuses a valid index (the random
draw scaled to the photo count) and starts the focus animation toward 1,
leaving phase and explosion untouched; in every other situation — including
Nebula with zero photos — the pinch is a complete no-op. -/
theorem pinch_focus (s : MState) (t r : ℚ) (n : Nat)
    (h0 : 0 ≤ r) (h1 : r < 1) :
    (s.phase = .nebula ∧ 0 < n ∧ s.focusedPhotoIndex = none →
      (onGesture s .pinch t n r).focusedPhotoIndex =
        some (Int.toNat ⌊r * (n : ℚ)⌋) ∧
      Int.toNat ⌊r * (n : ℚ)⌋ < n ∧
      (onGesture s .pinch t n r).focusVal.endVal = 1 ∧
      (onGesture s .pinch t n r).focusVal.t0 = t ∧
      (onGesture s .pinch t n r).phase = s.phase ∧
      (onGesture s .pinch t n r).explosionVal = s.explosionVal) ∧
    (¬(s.phase = .nebula ∧ 0 < n ∧ s.focusedPhotoIndex = none) →
      onGesture s .pinch t n r = s) := by
  constructor
  · rintro ⟨hph, hn, hfoc⟩
    have hnn : (0 : ℚ) < (n : ℚ) := by exact_mod_cast hn
    have hlt : r * (n : ℚ) < (n : ℚ) := by
      calc r * (n : ℚ) < 1 * (n : ℚ) := mul_lt_mul_of_pos_right h1 hnn
      _ = (n : ℚ) := one_mul _
    have hfl : ⌊r * (n : ℚ)⌋ < (n : ℤ) := by
      rw [Int.floor_lt]; exact_mod_cast hlt
    have hfl0 : 0 ≤ ⌊r * (n : ℚ)⌋ :=
      Int.floor_nonneg.mpr (mul_nonneg h0 (by positivity))
    have hbound : Int.toNat ⌊r * (n : ℚ)⌋ < n := by omega
    refine ⟨?_, hbound, ?_, ?_, ?_, ?_⟩ <;>
      simp [onGesture, hph, hn, hfoc, Tween.retarget]
  · intro hneg
    by_cases hph : s.phase = .nebula
    · by_cases hn : 0 < n
      · have hfoc : s.focusedPhotoIndex ≠ none := by tauto
        simp [onGesture, hph, hn, hfoc]
      · simp [onGesture, hph, hn]
    · simp [onGesture, hph]

/-- C6 witness: a pinch in the concrete nebula state with three photos
focuses a valid index, and with zero photos is a no-op. -/
theorem pinch_focus_witness :
    ((onGesture nebulaState .pinch 2 3 (1/2)).focusedPhotoIndex =
        some (Int.toNat ⌊(1/2 : ℚ) * ((3 : Nat) : ℚ)⌋) ∧
      Int.toNat ⌊(1/2 : ℚ) * ((3 : Nat) : ℚ)⌋ < 3) ∧
    onGesture nebulaState .pinch 2 0 (1/2) = nebulaState := by
  have h := pinch_focus nebulaState 2 (1/2) 3 (by norm_num) (by norm_num)
  have h0 := pinch_focus nebulaState 2 (1/2) 0 (by norm_num) (by norm_num)
  have hfire := h.1 ⟨nebulaState_phase, by norm_num, nebulaState_focus⟩
  exact ⟨⟨hfire.1, hfire.2.1⟩, h0.2 (by simp)⟩

/-! Helper lemmas about the per-hand loop. -/

/-- Reduction of the loop body on a control-hand (`'Left'`) observation whose
accessed landmarks are present and whose classification succeeds. -/
lemma handLoop_left (f : Landmark → Landmark → ℚ) (px py pr : ℚ)
    (g l : GestureState) (obs : HandObservation) (w m : Landmark)
    (cp : GestureState) (hl : obs.label = .left)
    (h0 : obs.landmarks[0]? = some w) (h9 : obs.landmarks[9]? = some m)
    (hc : detectOpenClosed obs.landmarks = some cp) :
    handLoop f (px, py, pr, g, l) obs =
      some (px + (w.x - px) * (15/100), py + (w.y - py) * (15/100),
            pr + (deadzone (f w m) - pr) * (1/10), cp, l) := by
  simp [handLoop, hl, h0, h9, hc]

/-- Reduction of the loop body on a grab-hand (`'Right'`) observation whose
classification and pinch test succeed. -/
lemma handLoop_right (f : Landmark → Landmark → ℚ) (px py pr : ℚ)
    (g l : GestureState) (obs : HandObservation) (gp : GestureState)
    (pb : Bool) (hl : obs.label = .right)
    (hg : detectOpenClosed obs.landmarks = some gp)
    (hp : isPinch obs.landmarks = some pb) :
    handLoop f (px, py, pr, g, l) obs =
      some (px, py, pr, g,
            if (decide (gp = .closedFist) || pb) = true then .pinch else l) := by
  by_cases hgp : gp = .closedFist <;> cases pb <;>
    simp [handLoop, hl, hg, hp, hgp]

/-- C4: for every full 21-landmark hand observation the classifier counts the
extended fingers (tip strictly farther from the wrist than the proximal
joint, in squared planar distance, for the four fingers and the thumb) and
returns OpenPalm exactly for count 5, ClosedFist exactly for count 0 or 1,
and Neutral (`'waiting'`) otherwise. -/
theorem detectOpenClosed_classification (lms : List Landmark)
    (h : lms.length = 21) :
    ∃ n, extendedCount lms = some n ∧ n = countExtended lms ∧ n ≤ 5 ∧
      (detectOpenClosed lms = some .openPalm ↔ n = 5) ∧
      (detectOpenClosed lms = some .closedFist ↔ n = 0 ∨ n = 1) ∧
      (detectOpenClosed lms = some .waiting ↔ 2 ≤ n ∧ n ≤ 4) := by
  have hget : ∀ i, i < 21 → lms[i]? = some (lms.getD i ⟨0, 0, 0⟩) := by
    intro i hi
    rw [List.getD_eq_getElem?_getD, List.getElem?_eq_getElem (by omega)]
    rfl
  have hcount : extendedCount lms = some (countExtended lms) := by
    rw [extendedCount, countExtended]
    simp only [fingerTips, fingerPIPs, List.zip, List.zipWith, List.foldlM,
      List.range, List.range.loop, List.map, List.sum_cons, List.sum_nil,
      List.getD, List.get?, Option.getD_some,
      hget 0 (by norm_num), hget 8 (by norm_num), hget 6 (by norm_num),
      hget 12 (by norm_num), hget 10 (by norm_num), hget 16 (by norm_num),
      hget 14 (by norm_num), hget 20 (by norm_num), hget 18 (by norm_num),
      hget 4 (by norm_num), hget 2 (by norm_num),
      Option.pure_def, Option.bind_eq_bind, Option.some_bind]
    split_ifs <;> simp
  have hle : countExtended lms ≤ 5 := by
    rw [countExtended]
    simp only [fingerTips, fingerPIPs, List.zip, List.zipWith, List.map,
      List.sum_cons, List.sum_nil]
    split_ifs <;> omega
  refine ⟨countExtended lms, hcount, rfl, hle, ?_, ?_, ?_⟩ <;>
  · have hdet : detectOpenClosed lms =
        some (if countExtended lms ≥ 5 then .openPalm
          else if countExtended lms ≤ 1 then .closedFist else .waiting) := by
      unfold detectOpenClosed
      rw [hcount]
      simp only [Option.pure_def, Option.bind_eq_bind, Option.some_bind]
      split_ifs <;> rfl
    rw [hdet]
    generalize countExtended lms = n at hle ⊢
    interval_cases n <;> simp

/-- C4 witness: the open-palm landmark list instantiates the classification
theorem. -/
theorem detectOpenClosed_classification_witness :
    openLms.length = 21 ∧
    (∃ n, extendedCount openLms = some n ∧ n = countExtended openLms ∧
      n ≤ 5 ∧
      (detectOpenClosed openLms = some .openPalm ↔ n = 5) ∧
      (detectOpenClosed openLms = some .closedFist ↔ n = 0 ∨ n = 1) ∧
      (detectOpenClosed openLms = some .waiting ↔ 2 ≤ n ∧ n ≤ 4)) :=
  ⟨by simp [openLms],
   detectOpenClosed_classification openLms (by simp [openLms])⟩

/-- C7: on observations with fewer than the expected 21 landmarks the
classifier and the pinch test do not yield a value at all — the missing
landmark access faults (models the `TypeError` on `undefined.x`) instead of
failing safe to Neutral/no-pinch as the spec requires. -/
theorem short_landmarks_fault :
    detectOpenClosed (List.replicate 20 ⟨0, 0, 0⟩) = none ∧
    isPinch (List.replicate 8 ⟨0, 0, 0⟩) = none ∧
    detectOpenClosed [] = none ∧ isPinch [] = none := by
  refine ⟨?_, ?_, ?_, ?_⟩ <;>
    simp [detectOpenClosed, extendedCount, isPinch, List.replicate,
      fingerTips, fingerPIPs, List.range, List.range.loop, List.foldlM, distSq]

/-- C8: the pinch flag is true exactly when the Euclidean planar distance of
thumb tip and index tip is strictly below `0.05`; a distance of exactly
`0.05` reads false, `0.049` reads true, and a Neutral pose can pinch. -/
theorem isPinch_iff_sqrt :
    (∀ (lms : List Landmark) (thumbTip indexTip : Landmark),
      lms[4]? = some thumbTip → lms[8]? = some indexTip →
      (isPinch lms = some true ↔
        Real.sqrt ((distSq thumbTip indexTip : ℚ) : ℝ) < 5/100)) ∧
    isPinch exactPinchLms = some false ∧
    isPinch nearPinchLms = some true ∧
    (∃ lms, detectOpenClosed lms = some .waiting ∧ isPinch lms = some true) := by
  refine ⟨?_, ?_, ?_, ⟨neutralPinchLms, ?_, ?_⟩⟩
  · intro lms thumbTip indexTip h4 h8
    have hiff : isPinch lms = some true ↔
        distSq thumbTip indexTip < (5/100 : ℚ) ^ 2 := by
      simp [isPinch, h4, h8]
    rw [hiff, Real.sqrt_lt' (by norm_num),
      show ((5 : ℝ)/100) = ((5/100 : ℚ) : ℝ) by norm_num]
    exact_mod_cast Iff.rfl
  · simp [isPinch, exactPinchLms, distSq]
    norm_num
  · simp [isPinch, nearPinchLms, distSq]
    norm_num
  · simp [detectOpenClosed, extendedCount, neutralPinchLms, distSq,
      fingerTips, fingerPIPs, List.range, List.range.loop, List.foldlM]
  · simp [isPinch, neutralPinchLms, distSq, List.range, List.range.loop]

/-- C8 witness: the `0.049`-apart landmarks instantiate the threshold
theorem. -/
theorem isPinch_iff_sqrt_witness :
    Real.sqrt ((distSq ⟨0, 0, 0⟩ ⟨49/1000, 0, 0⟩ : ℚ) : ℝ) < 5/100 :=
  (isPinch_iff_sqrt.1 nearPinchLms ⟨0, 0, 0⟩ ⟨49/1000, 0, 0⟩ rfl rfl).mp
    (by simp [isPinch, nearPinchLms, distSq]; norm_num)

/-- C9: one smoother update on the control hand returns exactly
`previous + (raw - previous) * alpha` with `alpha = 0.15` for the two
position channels and `alpha = 0.10` for rotation, where the raw rotation
passes the `0.2` deadzone first; a raw rotation of `0.15` is snapped to `0`
and `0.25` is not. -/
theorem smoother_step (f : Landmark → Landmark → ℚ) (px py pr : ℚ)
    (g l : GestureState) (obs : HandObservation) (w m : Landmark)
    (cp : GestureState) (hl : obs.label = .left)
    (h0 : obs.landmarks[0]? = some w) (h9 : obs.landmarks[9]? = some m)
    (hc : detectOpenClosed obs.landmarks = some cp) :
    handLoop f (px, py, pr, g, l) obs =
      some (px + (w.x - px) * (15/100), py + (w.y - py) * (15/100),
            pr + (deadzone (f w m) - pr) * (1/10), cp, l) ∧
    deadzone (15/100) = 0 ∧ deadzone (25/100) = 25/100 :=
  ⟨handLoop_left f px py pr g l obs w m cp hl h0 h9 hc,
   by rw [deadzone, if_pos (by rw [abs_of_nonneg (by norm_num)]; norm_num)],
   by rw [deadzone, if_neg (by rw [abs_of_nonneg (by norm_num)]; norm_num)]⟩

/-- C9 witness: a concrete control-hand observation instantiates the
smoother equation. -/
theorem smoother_step_witness :
    handLoop (fun _ _ => 15/100) (1, 2, 3, .waiting, .waiting)
        ⟨.left, fistLms⟩ =
      some (1 + ((0 : ℚ) - 1) * (15/100), 2 + ((0 : ℚ) - 2) * (15/100),
            3 + (deadzone (15/100) - 3) * (1/10), .closedFist, .waiting) ∧
    deadzone (15/100) = 0 ∧ deadzone (25/100) = 25/100 :=
  smoother_step (fun _ _ => 15/100) 1 2 3 .waiting .waiting
    ⟨.left, fistLms⟩ ⟨0, 0, 0⟩ ⟨0, 0, 0⟩ .closedFist rfl rfl rfl
    (by simp [detectOpenClosed, extendedCount, fistLms, List.replicate,
      distSq, fingerTips, fingerPIPs, List.range, List.range.loop,
      List.foldlM])

/-- C1: on a two-hand frame whose control (`'Left'`) hand classifies as `cp`
and whose grab (`'Right'`) hand classifies as `gp` with raw pinch bit `pb`,
the published gesture is exactly the spec's fixed priority; likewise on the
one-hand frames, the absent hand contributing `Waiting` / no pinch.  In
particular a control ClosedFist preempts a simultaneous grab Pinch. -/
theorem unified_priority (f : Landmark → Landmark → ℚ) (st : TrackerState)
    (cl gl : List Landmark) (w m : Landmark) (cp gp : GestureState)
    (pb : Bool) (h0 : cl[0]? = some w) (h9 : cl[9]? = some m)
    (hc : detectOpenClosed cl = some cp)
    (hg : detectOpenClosed gl = some gp) (hp : isPinch gl = some pb) :
    ((predictFrame f st (.ok [⟨.left, cl⟩, ⟨.right, gl⟩])).map
        fun o => o.1.gestureState) =
      some (specPriority cp (decide (gp = .closedFist) || pb)) ∧
    ((predictFrame f st (.ok [⟨.left, cl⟩])).map fun o => o.1.gestureState) =
      some (specPriority cp false) ∧
    ((predictFrame f st (.ok [⟨.right, gl⟩])).map fun o => o.1.gestureState) =
      some (specPriority .waiting (decide (gp = .closedFist) || pb)) ∧
    (cp = .closedFist →
      ((predictFrame f st (.ok [⟨.left, cl⟩, ⟨.right, gl⟩])).map
          fun o => o.1.gestureState) = some .closedFist) := by
  have hL := handLoop_left f st.prevHandPosX st.prevHandPosY st.prevHandRot
    .waiting .waiting ⟨.left, cl⟩ w m cp rfl h0 h9 hc
  have hgoal1 : ((predictFrame f st (.ok [⟨.left, cl⟩, ⟨.right, gl⟩])).map
      fun o => o.1.gestureState) =
      some (specPriority cp (decide (gp = .closedFist) || pb)) := by
    have hR := handLoop_right f
      (st.prevHandPosX + (w.x - st.prevHandPosX) * (15/100))
      (st.prevHandPosY + (w.y - st.prevHandPosY) * (15/100))
      (st.prevHandRot + (deadzone (f w m) - st.prevHandRot) * (1/10))
      cp .waiting ⟨.right, gl⟩ gp pb rfl hg hp
    simp only [predictFrame, List.isEmpty_cons, Bool.false_eq_true,
      if_false, List.foldlM_cons, List.foldlM_nil, hL, hR,
      Option.pure_def, Option.bind_eq_bind, Option.some_bind, Option.map_some]
    cases hb : (decide (gp = .closedFist) || pb) <;> cases cp <;>
      simp [specPriority]
  refine ⟨hgoal1, ?_, ?_, fun hcp => by rw [hgoal1, hcp]; rfl⟩
  · simp only [predictFrame, List.isEmpty_cons, Bool.false_eq_true,
      if_false, List.foldlM_cons, List.foldlM_nil, hL,
      Option.pure_def, Option.bind_eq_bind, Option.some_bind, Option.map_some]
    cases cp <;> simp [specPriority]
  · have hR := handLoop_right f st.prevHandPosX st.prevHandPosY
      st.prevHandRot .waiting .waiting ⟨.right, gl⟩ gp pb rfl hg hp
    simp only [predictFrame, List.isEmpty_cons, Bool.false_eq_true,
      if_false, List.foldlM_cons, List.foldlM_nil, hR,
      Option.pure_def, Option.bind_eq_bind, Option.some_bind, Option.map_some]
    cases hb : (decide (gp = .closedFist) || pb) <;> simp [specPriority]

/-- C1 witness: control fist plus grab fist-pinch yields ClosedFist. -/
theorem unified_priority_witness :
    ((predictFrame (fun _ _ => 0) ⟨1/2, 1/2, 0, .waiting, true⟩
        (.ok [⟨.left, fistLms⟩, ⟨.right, fistLms⟩])).map
      fun o => o.1.gestureState) = some .closedFist :=
  (unified_priority (fun _ _ => 0) ⟨1/2, 1/2, 0, .waiting, true⟩
    fistLms fistLms ⟨0, 0, 0⟩ ⟨0, 0, 0⟩ .closedFist .closedFist true
    rfl rfl detect_fistLms detect_fistLms pinch_fistLms).2.2.2 rfl

/-- The gesture components of the per-hand loop do not depend on the
smoother components of the accumulator. -/
lemma foldlM_gesture_indep (f : Landmark → Landmark → ℚ)
    (obs : List HandObservation) :
    ∀ (p1 q1 r1 p2 q2 r2 : ℚ) (g l : GestureState),
      ((obs.foldlM (handLoop f) (p1, q1, r1, g, l)).map fun a => a.2.2.2) =
      ((obs.foldlM (handLoop f) (p2, q2, r2, g, l)).map fun a => a.2.2.2) := by
  induction obs with
  | nil => intros; rfl
  | cons o rest ih =>
      intro p1 q1 r1 p2 q2 r2 g l
      rw [List.foldlM_cons, List.foldlM_cons]
      cases hl : o.label
      case left =>
        cases h0 : o.landmarks[0]? with
        | none => simp [handLoop, hl, h0]
        | some w =>
          cases h9 : o.landmarks[9]? with
          | none => simp [handLoop, hl, h0, h9]
          | some m =>
            cases hc : detectOpenClosed o.landmarks with
            | none => simp [handLoop, hl, h0, h9, hc]
            | some cp =>
                simp only [handLoop, hl, h0, h9, hc, Option.pure_def,
                  Option.bind_eq_bind, Option.some_bind]
                exact ih _ _ _ _ _ _ cp l
      case right =>
        cases hc : detectOpenClosed o.landmarks with
        | none => simp [handLoop, hl, hc]
        | some gp =>
          by_cases hgp : gp = .closedFist
          · simp only [handLoop, hl, hc, hgp, if_pos, Option.pure_def,
              Option.bind_eq_bind, Option.some_bind, if_true]
            exact ih _ _ _ _ _ _ g _
          · cases hp : isPinch o.landmarks with
            | none => simp [handLoop, hl, hc, hgp, hp]
            | some pb =>
                simp only [handLoop, hl, hc, hgp, hp, if_neg,
                  Option.pure_def, Option.bind_eq_bind, Option.some_bind,
                  if_false]
                exact ih _ _ _ _ _ _ g _

/-- C5: the published gesture of a frame is a deterministic function of that
frame's observations only — two runs from different carried states agree on
it — and a frame with zero observed hands publishes Waiting regardless of
the previous value. -/
theorem gesture_memoryless (f : Landmark → Landmark → ℚ)
    (st1 st2 : TrackerState) (obs : List HandObservation)
    (o1 o2 : TrackerState × Bool)
    (h1 : predictFrame f st1 (.ok obs) = some o1)
    (h2 : predictFrame f st2 (.ok obs) = some o2) :
    o1.1.gestureState = o2.1.gestureState ∧
    predictFrame f st1 (.ok []) =
      some ({ st1 with gestureState := .waiting }, st1.isCameraOpen) := by
  refine ⟨?_, rfl⟩
  cases obs with
  | nil =>
      simp only [predictFrame, List.isEmpty_nil, if_true,
        Option.some_inj] at h1 h2
      rw [← h1, ← h2]
  | cons o rest =>
      have hind := foldlM_gesture_indep f (o :: rest)
        st1.prevHandPosX st1.prevHandPosY st1.prevHandRot
        st2.prevHandPosX st2.prevHandPosY st2.prevHandRot .waiting .waiting
      simp only [predictFrame, List.isEmpty_cons, Bool.false_eq_true,
        if_false, Option.pure_def, Option.bind_eq_bind] at h1 h2
      cases hf1 : (o :: rest).foldlM (handLoop f)
          (st1.prevHandPosX, st1.prevHandPosY, st1.prevHandRot,
            .waiting, .waiting) with
      | none => rw [hf1] at h1; simp at h1
      | some a1 =>
        cases hf2 : (o :: rest).foldlM (handLoop f)
            (st2.prevHandPosX, st2.prevHandPosY, st2.prevHandRot,
              .waiting, .waiting) with
        | none => rw [hf2] at h2; simp at h2
        | some a2 =>
            rw [hf1, hf2] at hind
            simp only [Option.map_some', Option.some_inj] at hind
            rw [hf1] at h1
            rw [hf2] at h2
            obtain ⟨px1, py1, pr1, g1, l1⟩ := a1
            obtain ⟨px2, py2, pr2, g2, l2⟩ := a2
            simp only [Option.some_bind, Option.some_inj] at h1 h2
            obtain ⟨hg, hl⟩ := Prod.mk.injEq .. ▸ hind
            rw [← h1, ← h2]
            simp_all

/-- C5 witness: a grab-hand frame from two different carried states, plus
the zero-hand reset. -/
theorem gesture_memoryless_witness :
    ((⟨0, 0, 0, .pinch, false⟩ : TrackerState), false).1.gestureState =
      ((⟨5, 7, 9, .pinch, true⟩ : TrackerState), true).1.gestureState ∧
    predictFrame (fun _ _ => 0) ⟨0, 0, 0, .waiting, false⟩ (.ok []) =
      some (⟨0, 0, 0, .waiting, false⟩, false) :=
  gesture_memoryless (fun _ _ => 0)
    ⟨0, 0, 0, .waiting, false⟩ ⟨5, 7, 9, .waiting, true⟩
    [⟨.right, fistLms⟩]
    (⟨0, 0, 0, .pinch, false⟩, false) (⟨5, 7, 9, .pinch, true⟩, true)
    (by simp [predictFrame, handLoop, detect_fistLms, pinch_fistLms])
    (by simp [predictFrame, handLoop, detect_fistLms, pinch_fistLms])

/-- C10: a detector-call failure is caught inside the frame: the tracker
state is left untouched (gesture processing skipped) and the next frame is
scheduled instead of the loop halting. -/
theorem detector_error_caught (f : Landmark → Landmark → ℚ)
    (st : TrackerState) :
    predictFrame f st .err = some (st, true) := rfl

end GestureTree
